import Mathlib

/-!
Shallow embedding of the `/extract` request handler (`extract_text`) of
`app.py`, the single source file of the American Driver License Scanner
web application.

Modelling choices:
* The two remote completion calls are modelled by an `Oracle`: `step1` is
  the outcome of the first (vision) call, `step2` the outcome of the
  second (structuring) call as a function of the user-message content the
  handler sends to it.  `Except.error e` models the call raising an
  exception whose message is `e`; `Except.ok t` models it returning
  message content `t`.
* `request.json` being absent or falsy (`if not data`) is modelled by the
  request argument being `none`; a present body is a `ReqBody` with the
  optional `image` value and the `force_extraction` flag
  (`data.get('force_extraction', False)` truthiness as a `Bool`).
* Python string primitives are embedded as executable functions over the
  character list of a `String`: `str.split(c)` is `pySplit c` (the source
  only splits on the single characters `','`, `'\n'` and `':'`),
  `str.strip()` is `pyStrip` (whitespace trimming on both ends),
  `str.startswith` is `pyStartsWith`, `c in s` is `pyContains`, and
  `line.split(':', 1)` (split on the first colon only) is
  `splitFirstColon`.
* `image_data.split(',')[1]` can raise `IndexError` (message
  `list index out of range`) when the string has no comma; `stripImage`
  returns `Except.error` in that case, and the handler routes it to the
  outermost `except` clause, which answers with the uniform
  `Server error: ...` JSON.
* The Python dict built by the parsing loop is an insertion-ordered
  association list; `dictInsert` mirrors Python dict assignment
  (update in place when the key exists, append otherwise).
* Durations are modelled as centisecond counts (`Nat`); `fmt2f cs` is the
  embedding of the format expression `f"{t:.2f}"` applied to the
  nonnegative duration `cs / 100` seconds.  Every `jsonify(...)` call in
  the handler carries no explicit HTTP code, so every response is
  delivered with HTTP 200; the `Response` type below enumerates exactly
  the JSON shapes the handler can produce.
* Alongside the response, the model returns the trace of remote calls
  made, in order, so that claims about calls never being made are
  statable.
-/

/-- The JSON request body, when present and truthy: the optional `image`
value and the `force_extraction` flag. -/
structure ReqBody where
  image : Option String
  force_extraction : Bool
deriving Repr, DecidableEq

/-- Outcomes of the two remote completion calls.  `step2` receives the
user-message content the handler sends for the structuring call. -/
structure Oracle where
  step1 : Except String String
  step2 : String → Except String String

/-- A remote call made by the handler: the first (vision) call carries the
image data URL, the second (structuring) call carries the user-message
content. -/
inductive Call where
  | extraction (imageUrl : String)
  | structuring (userContent : String)
deriving Repr, DecidableEq

/-- The JSON shapes the handler can return (all with HTTP 200):
a bare error message, the no-license error with `analysis.license_detected`
and suggestions, the step-2 error carrying `raw_text`, and the success
shape. -/
inductive Response where
  | errorMsg (message : String)
  | errorNoLicense (message : String) (license_detected : Bool)
      (suggestions : List String)
  | errorWithRaw (message : String) (raw_text : String)
  | success (data : List (String × String)) (raw_text : String)
      (license_info : String)
      (extraction_time license_processing_time total_time : String)
deriving Repr, DecidableEq

/-- The value of the `status` field of each response shape. -/
def Response.statusField : Response → String
  | .success _ _ _ _ _ _ => "success"
  | _ => "error"

/-- Python `str.split(c)` on a character-list: splitting the empty text
gives one empty piece, a separator character starts a new piece. -/
def splitOnChar (c : Char) : List Char → List (List Char)
  | [] => [[]]
  | x :: xs =>
    match splitOnChar c xs with
    | [] => if x = c then [[], []] else [[x]]
    | y :: ys => if x = c then [] :: y :: ys else (x :: y) :: ys

/-- Python `str.split(c)` for a single-character separator `c`
(the source only ever splits on `','`, `'\n'` and `':'`). -/
def pySplit (c : Char) (s : String) : List String :=
  (splitOnChar c s.data).map (fun l => String.mk l)

/-- Join character-lists with a separator character (used to rebuild the
remainder of a `split(':', 1)`). -/
def joinWithChar (c : Char) : List (List Char) → List Char
  | [] => []
  | [x] => x
  | x :: y :: ys => x ++ c :: joinWithChar c (y :: ys)

/-- Join strings with a separator character. -/
def joinWith (c : Char) (pieces : List String) : String :=
  String.mk (joinWithChar c (pieces.map String.data))

/-- Python `str.strip()`: remove leading and trailing whitespace. -/
def pyStrip (s : String) : String :=
  String.mk
    (((s.data.dropWhile Char.isWhitespace).reverse.dropWhile
        Char.isWhitespace).reverse)

/-- Python `str.startswith(pre)`. -/
def pyStartsWith (pre s : String) : Bool :=
  pre.data.isPrefixOf s.data

/-- Python `c in s` membership test for a character. -/
def pyContains (s : String) (c : Char) : Bool :=
  s.data.any (fun x => x == c)

/-- Python `line.split(':', 1)` for a line, returned as the pair
(text before the first colon, text after it).  When the line has no colon
the second component is irrelevant (the handler guards with `':' in line`). -/
def splitFirstColon (line : String) : String × String :=
  match pySplit ':' line with
  | [] => ("", "")
  | x :: xs => (x, joinWith ':' xs)

/-- Python dict assignment `d[key] = value` on an insertion-ordered
association list: update in place when the key is present, append
otherwise. -/
def dictInsert (d : List (String × String)) (k v : String) :
    List (String × String) :=
  if d.any (fun p => p.1 == k) then
    d.map (fun p => if p.1 == k then (k, v) else p)
  else d ++ [(k, v)]

/-- Python dict lookup on the association list (first entry wins; entries
built by `dictInsert` have unique keys). -/
def dictLookup (d : List (String × String)) (k : String) : Option String :=
  match d with
  | [] => none
  | p :: rest => if p.1 == k then some p.2 else dictLookup rest k

/-- One iteration of the parsing loop of `app.py` lines 197-203: a line
containing a colon is split on the first colon, both parts are trimmed and
recorded; a line without a colon leaves the dict unchanged. -/
def parseLine (d : List (String × String)) (line : String) :
    List (String × String) :=
  if pyContains line ':' then
    let parts := splitFirstColon line
    dictInsert d (pyStrip parts.1) (pyStrip parts.2)
  else d

/-- The parsing of the step-2 text into the field mapping
(`app.py` lines 194-203): split into lines, fold `parseLine`. -/
def parseLicenseInfo (license_info : String) : List (String × String) :=
  (pySplit '\n' license_info).foldl parseLine []

/-- The field mapping placed in the success response
(`app.py` lines 205-208): the parsed mapping, or the synthetic
`Raw Extracted Text` entry when it is empty. -/
def formattedData (license_info extracted_text : String) :
    List (String × String) :=
  let fd := parseLicenseInfo license_info
  if fd = [] then [("Raw Extracted Text", extracted_text)] else fd

/-- The data-URL prefix stripping of `app.py` lines 64-66:
`image_data.split(',')[1]` when the value starts with `data:image`,
`Except.error` modelling the `IndexError` when index 1 does not exist. -/
def stripImage (image_data : String) : Except String String :=
  if pyStartsWith "data:image" image_data then
    match (pySplit ',' image_data).get? 1 with
    | some s => Except.ok s
    | none => Except.error "list index out of range"
  else Except.ok image_data

/-- The four retake-photo suggestions of `app.py` lines 115-120. -/
def noLicenseSuggestions : List String :=
  ["Make sure your driver\x27s license is visible in the image",
   "Ensure good lighting with minimal glare",
   "Hold the license parallel to the camera",
   "Use a contrasting background"]

/-- The fixed text preceding the extracted text in the user message of the
second (structuring) call, `app.py` line 170. -/
def structuringUserText (extracted_text : String) : String :=
  "Extract driver\x27s license information from this text:\n\n" ++
    extracted_text

/-- Embedding of `f"{t:.2f}"` for a nonnegative duration of `cs`
centiseconds: integer part, a dot, then exactly the tens and units digits
of the centisecond remainder. -/
def fmt2f (cs : Nat) : String :=
  toString (cs / 100) ++ "." ++ toString (cs % 100 / 10) ++
    toString (cs % 100 % 10)

/-- The `/extract` handler (`app.py` lines 41-230), given the request body,
the remote-call oracle and the three measured durations (centiseconds).
Returns the JSON response together with the trace of remote calls made. -/
def extract_text (req : Option ReqBody) (oracle : Oracle)
    (extraction_cs license_cs total_cs : Nat) : Response × List Call :=
  match req with
  | none => (Response.errorMsg "No JSON data provided", [])
  | some body =>
    match body.image with
    | none => (Response.errorMsg "No image data provided", [])
    | some image0 =>
      match stripImage image0 with
      | Except.error e => (Response.errorMsg ("Server error: " ++ e), [])
      | Except.ok image_data =>
        match oracle.step1 with
        | Except.error e =>
            (Response.errorMsg ("OpenAI text extraction failed: " ++ e),
             [Call.extraction ("data:image/jpeg;base64," ++ image_data)])
        | Except.ok extracted_text =>
          if pyStrip extracted_text = "NO_LICENSE_DETECTED" ∧
              body.force_extraction = false then
            (Response.errorNoLicense
               "Could not clearly detect a driver\x27s license in the image"
               false noLicenseSuggestions,
             [Call.extraction ("data:image/jpeg;base64," ++ image_data)])
          else
            match oracle.step2 (structuringUserText extracted_text) with
            | Except.error e =>
                (Response.errorWithRaw
                   ("OpenAI license info extraction failed: " ++ e)
                   extracted_text,
                 [Call.extraction ("data:image/jpeg;base64," ++ image_data),
                  Call.structuring (structuringUserText extracted_text)])
            | Except.ok license_info =>
                (Response.success (formattedData license_info extracted_text)
                   extracted_text license_info
                   (fmt2f extraction_cs ++ "s") (fmt2f license_cs ++ "s")
                   (fmt2f total_cs ++ "s"),
                 [Call.extraction ("data:image/jpeg;base64," ++ image_data),
                  Call.structuring (structuringUserText extracted_text)])

/-- A shared concrete oracle for witnesses: step 1 returns `t`, step 2
returns `li` whatever content it is sent. -/
def constOracle (t li : String) : Oracle :=
  ⟨Except.ok t, fun _ => Except.ok li⟩

/-- A shared concrete oracle whose step 2 raises with message `e`. -/
def failStep2Oracle (t e : String) : Oracle :=
  ⟨Except.ok t, fun _ => Except.error e⟩

lemma dictLookup_map_self (d : List (String × String)) (k v : String)
    (h : d.any (fun p => p.1 == k) = true) :
    dictLookup (d.map (fun p => if p.1 == k then (k, v) else p)) k
      = some v := by
  induction d with
  | nil => simp at h
  | cons p rest ih =>
    rw [List.map_cons]
    by_cases hp : (p.1 == k) = true
    · rw [if_pos hp]
      simp [dictLookup]
    · have hb : (p.1 == k) = false := by
        exact Bool.not_eq_true _ ▸ Bool.of_not_eq_true hp
      simp only [List.any_cons, hb, Bool.false_or] at h
      rw [if_neg hp]
      simp only [dictLookup, hb, Bool.false_eq_true, if_false]
      exact ih h

lemma dictLookup_append_self (d : List (String × String)) (k v : String)
    (h : d.any (fun p => p.1 == k) = false) :
    dictLookup (d ++ [(k, v)]) k = some v := by
  induction d with
  | nil => simp [dictLookup]
  | cons p rest ih =>
    simp only [List.any_cons, Bool.or_eq_false_iff] at h
    have hp : ¬ p.1 = k := by
      intro hk
      simp [hk] at h
    simp [dictLookup, hp, ih h.2]

lemma dictLookup_dictInsert (d : List (String × String)) (k v : String) :
    dictLookup (dictInsert d k v) k = some v := by
  unfold dictInsert
  by_cases h : d.any (fun p => p.1 == k) = true
  · simp only [h, if_true]
    exact dictLookup_map_self d k v h
  · have hf : d.any (fun p => p.1 == k) = false := by
      exact Bool.not_eq_true _ ▸ Bool.of_not_eq_true h
    simp only [hf, Bool.false_eq_true, if_false]
    exact dictLookup_append_self d k v hf

lemma parseLine_no_colon (d : List (String × String)) (line : String)
    (h : pyContains line ':' = false) : parseLine d line = d := by
  simp [parseLine, h]

lemma foldl_parseLine_no_colon (lines : List String)
    (h : ∀ line ∈ lines, pyContains line ':' = false) :
    ∀ d, lines.foldl parseLine d = d := by
  induction lines with
  | nil => intro d; rfl
  | cons x xs ih =>
    intro d
    rw [List.foldl_cons, parseLine_no_colon d x (h x (by simp))]
    exact ih (fun l hl => h l (by simp [hl])) d

lemma formattedData_ne_nil (li txt : String) :
    formattedData li txt ≠ [] := by
  unfold formattedData
  by_cases h : parseLicenseInfo li = [] <;> simp [h]

lemma splitOnChar_ne_nil (c : Char) (l : List Char) :
    splitOnChar c l ≠ [] := by
  induction l with
  | nil => simp [splitOnChar]
  | cons x xs ih =>
    unfold splitOnChar
    cases hs : splitOnChar c xs with
    | nil => by_cases hx : x = c <;> simp [hx]
    | cons y ys => by_cases hx : x = c <;> simp [hx]

lemma splitOnChar_of_no_sep (c : Char) (l : List Char)
    (h : ∀ x ∈ l, x ≠ c) : splitOnChar c l = [l] := by
  induction l with
  | nil => rfl
  | cons x xs ih =>
    have hx : x ≠ c := h x (by simp)
    unfold splitOnChar
    rw [ih (fun y hy => h y (by simp [hy]))]
    simp [hx]

lemma splitOnChar_append_sep (c : Char) (a b : List Char)
    (ha : ∀ x ∈ a, x ≠ c) :
    splitOnChar c (a ++ c :: b) = a :: splitOnChar c b := by
  induction a with
  | nil =>
    rw [List.nil_append]
    cases hs : splitOnChar c b with
    | nil => exact absurd hs (splitOnChar_ne_nil c b)
    | cons y ys => simp [splitOnChar, hs]
  | cons x a2 ih =>
    have hx : x ≠ c := ha x (by simp)
    have ih2 := ih (fun y hy => ha y (by simp [hy]))
    rw [List.cons_append]
    simp [splitOnChar, ih2, hx]

lemma string_data_append (s t : String) :
    (s ++ t).data = s.data ++ t.data := rfl

lemma pyContains_false_iff (s : String) (c : Char) :
    pyContains s c = false ↔ ∀ x ∈ s.data, x ≠ c := by
  simp [pyContains]

lemma pySplit_of_no_sep (c : Char) (s : String)
    (h : pyContains s c = false) : pySplit c s = [s] := by
  unfold pySplit
  rw [splitOnChar_of_no_sep c s.data ((pyContains_false_iff s c).mp h)]
  rfl

lemma isPrefixOf_append_right (l m n : List Char)
    (h : l.isPrefixOf m = true) : l.isPrefixOf (m ++ n) = true := by
  induction l generalizing m with
  | nil => simp [List.isPrefixOf]
  | cons x xs ih =>
    cases m with
    | nil => simp [List.isPrefixOf] at h
    | cons y ms =>
      simp only [List.isPrefixOf, List.cons_append, Bool.and_eq_true] at h ⊢
      exact ⟨h.1, ih ms h.2⟩

lemma toString_digit (n : Nat) (h : n < 10) :
    ∃ ch : Char, ch.isDigit = true ∧ toString n = String.mk [ch] := by
  interval_cases n
  · exact ⟨'0', by decide, rfl⟩
  · exact ⟨'1', by decide, rfl⟩
  · exact ⟨'2', by decide, rfl⟩
  · exact ⟨'3', by decide, rfl⟩
  · exact ⟨'4', by decide, rfl⟩
  · exact ⟨'5', by decide, rfl⟩
  · exact ⟨'6', by decide, rfl⟩
  · exact ⟨'7', by decide, rfl⟩
  · exact ⟨'8', by decide, rfl⟩
  · exact ⟨'9', by decide, rfl⟩

lemma fmt2f_data (cs : Nat) :
    ∃ d1 d2 : Char, d1.isDigit = true ∧ d2.isDigit = true ∧
      (fmt2f cs ++ "s").data =
        (toString (cs / 100)).data ++ '.' :: [d1, d2, 's'] := by
  obtain ⟨d1, hd1, e1⟩ := toString_digit (cs % 100 / 10) (by omega)
  obtain ⟨d2, hd2, e2⟩ := toString_digit (cs % 100 % 10) (by omega)
  refine ⟨d1, d2, hd1, hd2, ?_⟩
  unfold fmt2f
  rw [e1, e2]
  simp [string_data_append]

/-- C1: the field mapping over the step-2 text is built by splitting into
lines, splitting each colon-containing line on the first colon into a
trimmed key and a trimmed value with last-write-wins on duplicate keys,
and dropping every colon-less line; the line
`Address: 12:34 Main St` records the value `12:34 Main St`. -/
theorem c1_field_mapping_algorithm :
    (∀ d line, pyContains line ':' = false → parseLine d line = d) ∧
    (∀ d line, pyContains line ':' = true →
        parseLine d line =
          dictInsert d (pyStrip (splitFirstColon line).1)
            (pyStrip (splitFirstColon line).2)) ∧
    (∀ d k v, dictLookup (dictInsert d k v) k = some v) ∧
    parseLicenseInfo "Address: 12:34 Main St" =
      [("Address", "12:34 Main St")] ∧
    parseLicenseInfo "Name: Jane\nno colon line\nName: Doe" =
      [("Name", "Doe")] := by
  refine ⟨parseLine_no_colon, ?_, dictLookup_dictInsert, by decide, by decide⟩
  intro d line h
  simp [parseLine, h]

/-- Witness for C1: a colon-less line is dropped, and a duplicate key is
overwritten by the later value. -/
theorem c1_field_mapping_algorithm_witness :
    parseLine [] "no colon here" = [] ∧
    dictLookup (dictInsert [("Name", "Jane")] "Name" "Doe") "Name" =
      some "Doe" :=
  ⟨c1_field_mapping_algorithm.1 [] "no colon here" (by decide),
   c1_field_mapping_algorithm.2.2.1 [("Name", "Jane")] "Name" "Doe"⟩

/-- C2: when step 1 returns text whose trim equals the sentinel and
`force_extraction` is false, the handler answers the no-license error JSON
with `license_detected` false and exactly four suggestions, and the
structuring call is never made. -/
theorem c2_sentinel_short_circuit (body : ReqBody) (oracle : Oracle)
    (e l t : Nat) (img payload txt : String)
    (himg : body.image = some img)
    (hstrip : stripImage img = Except.ok payload)
    (h1 : oracle.step1 = Except.ok txt)
    (hsent : pyStrip txt = "NO_LICENSE_DETECTED")
    (hforce : body.force_extraction = false) :
    extract_text (some body) oracle e l t =
      (Response.errorNoLicense
         "Could not clearly detect a driver\x27s license in the image"
         false noLicenseSuggestions,
       [Call.extraction ("data:image/jpeg;base64," ++ payload)]) ∧
    noLicenseSuggestions.length = 4 ∧
    ∀ u, Call.structuring u ∉ (extract_text (some body) oracle e l t).2 := by
  have hmain : extract_text (some body) oracle e l t =
      (Response.errorNoLicense
         "Could not clearly detect a driver\x27s license in the image"
         false noLicenseSuggestions,
       [Call.extraction ("data:image/jpeg;base64," ++ payload)]) := by
    unfold extract_text
    simp only [himg, hstrip, h1]
    rw [if_pos ⟨hsent, hforce⟩]
  refine ⟨hmain, rfl, ?_⟩
  intro u hu
  rw [hmain] at hu
  simp at hu

/-- Witness for C2: a concrete sentinel run short-circuits. -/
theorem c2_sentinel_short_circuit_witness :
    extract_text (some ⟨some "AAAA", false⟩)
        (constOracle "NO_LICENSE_DETECTED" "K: V") 0 0 0 =
      (Response.errorNoLicense
         "Could not clearly detect a driver\x27s license in the image"
         false noLicenseSuggestions,
       [Call.extraction ("data:image/jpeg;base64," ++ "AAAA")]) :=
  (c2_sentinel_short_circuit ⟨some "AAAA", false⟩
    (constOracle "NO_LICENSE_DETECTED" "K: V") 0 0 0 "AAAA" "AAAA"
    "NO_LICENSE_DETECTED" rfl rfl rfl (by decide) rfl).1

/-- C6: a missing or falsy JSON body, or a body without the `image` key,
yields an error-status JSON with a descriptive message and zero remote
calls. -/
theorem c6_missing_input_no_calls (oracle : Oracle) (e l t : Nat)
    (f : Bool) :
    extract_text none oracle e l t =
      (Response.errorMsg "No JSON data provided", []) ∧
    extract_text (some ⟨none, f⟩) oracle e l t =
      (Response.errorMsg "No image data provided", []) :=
  ⟨rfl, rfl⟩

/-- C10: an `image` value that starts with `data:image` but contains no
comma makes the index access of the prefix stripping fail; the outermost
handler absorbs the `IndexError` and answers the uniform error JSON with
no remote call made. -/
theorem c10_dataimage_no_comma (oracle : Oracle) (e l t : Nat) (f : Bool)
    (img : String)
    (hpre : pyStartsWith "data:image" img = true)
    (hnc : pyContains img ',' = false) :
    extract_text (some ⟨some img, f⟩) oracle e l t =
      (Response.errorMsg "Server error: list index out of range", []) := by
  have hsplit : pySplit ',' img = [img] := pySplit_of_no_sep ',' img hnc
  have hstrip : stripImage img = Except.error "list index out of range" := by
    unfold stripImage
    simp [hpre, hsplit]
  unfold extract_text
  simp only [hstrip]
  decide

/-- Witness for C10: the concrete comma-less data-URL value. -/
theorem c10_dataimage_no_comma_witness :
    extract_text (some ⟨some "data:imageX", false⟩) (constOracle "a" "b")
        0 0 0 =
      (Response.errorMsg "Server error: list index out of range", []) :=
  c10_dataimage_no_comma (constOracle "a" "b") 0 0 0 false "data:imageX"
    (by decide) (by decide)

/-- Counterexample to C3: for the data-URL input
`data:image/png;base64,AA,BB` the image content sent onward is `AA`
(the segment between the first and the second comma), while the bare
string after the first comma, `AA,BB`, would be sent unchanged — the two
requests send different content, refuting the claimed identity. -/
theorem c3_counterexample :
    (extract_text (some ⟨some "data:image/png;base64,AA,BB", false⟩)
        (constOracle "T" "K: V") 0 0 0).2 =
      [Call.extraction "data:image/jpeg;base64,AA",
       Call.structuring (structuringUserText "T")] ∧
    (extract_text (some ⟨some "AA,BB", false⟩)
        (constOracle "T" "K: V") 0 0 0).2 =
      [Call.extraction "data:image/jpeg;base64,AA,BB",
       Call.structuring (structuringUserText "T")] ∧
    ("data:image/jpeg;base64,AA" : String) ≠ "data:image/jpeg;base64,AA,BB"
    := ⟨by decide, by decide, by decide⟩

/-- C3 as amended: the code keeps the second comma-separated segment of a
`data:image`-prefixed value, so when the content after the first comma
contains no further comma the prefix up to and including the first comma
is stripped and the result is exactly what a bare, prefix-free image
string yields; in particular `data:image/png;base64,AAAA` is treated like
bare `AAAA`. -/
theorem c3_amended_first_comma (p r : String)
    (hp : pyStartsWith "data:image" p = true)
    (hpc : pyContains p ',' = false)
    (hrc : pyContains r ',' = false)
    (hrp : pyStartsWith "data:image" r = false) :
    stripImage (p ++ "," ++ r) = Except.ok r ∧
    stripImage r = Except.ok r := by
  have hdata : (p ++ "," ++ r).data = p.data ++ ',' :: r.data := by
    rw [string_data_append, string_data_append]
    simp
  constructor
  · have hpre : pyStartsWith "data:image" (p ++ "," ++ r) = true := by
      unfold pyStartsWith at hp ⊢
      rw [hdata]
      exact isPrefixOf_append_right _ _ _ hp
    have hsplit : pySplit ',' (p ++ "," ++ r) = [p, r] := by
      unfold pySplit
      rw [hdata,
        splitOnChar_append_sep ',' p.data r.data
          ((pyContains_false_iff p ',').mp hpc),
        splitOnChar_of_no_sep ',' r.data
          ((pyContains_false_iff r ',').mp hrc)]
      rfl
    unfold stripImage
    simp [hpre, hsplit]
  · unfold stripImage
    simp [hrp]

/-- Witness for the amended C3: `data:image/png;base64,AAAA` and bare
`AAAA` both yield image content `AAAA`. -/
theorem c3_amended_first_comma_witness :
    stripImage ("data:image/png;base64" ++ "," ++ "AAAA") =
      Except.ok "AAAA" ∧
    stripImage "AAAA" = Except.ok "AAAA" :=
  c3_amended_first_comma "data:image/png;base64" "AAAA" (by decide)
    (by decide) (by decide) (by decide)

/-- C4: when step 1 succeeded with text `txt` and the step-2 call raises,
the handler returns the error-status JSON that carries exactly `txt` in
its `raw_text` field. -/
theorem c4_step2_failure_surfaces_raw (body : ReqBody) (oracle : Oracle)
    (e l t : Nat) (img payload txt err : String)
    (himg : body.image = some img)
    (hstrip : stripImage img = Except.ok payload)
    (h1 : oracle.step1 = Except.ok txt)
    (hns : ¬(pyStrip txt = "NO_LICENSE_DETECTED" ∧
        body.force_extraction = false))
    (h2 : oracle.step2 (structuringUserText txt) = Except.error err) :
    extract_text (some body) oracle e l t =
      (Response.errorWithRaw
         ("OpenAI license info extraction failed: " ++ err) txt,
       [Call.extraction ("data:image/jpeg;base64," ++ payload),
        Call.structuring (structuringUserText txt)]) := by
  unfold extract_text
  simp only [himg, hstrip, h1]
  rw [if_neg hns]
  simp only [h2]

/-- Witness for C4: a concrete step-2 failure still returns step 1's
text as `raw_text`. -/
theorem c4_step2_failure_surfaces_raw_witness :
    extract_text (some ⟨some "AAAA", false⟩) (failStep2Oracle "T" "boom")
        0 0 0 =
      (Response.errorWithRaw
         ("OpenAI license info extraction failed: " ++ "boom") "T",
       [Call.extraction ("data:image/jpeg;base64," ++ "AAAA"),
        Call.structuring (structuringUserText "T")]) :=
  c4_step2_failure_surfaces_raw ⟨some "AAAA", false⟩
    (failStep2Oracle "T" "boom") 0 0 0 "AAAA" "AAAA" "T" "boom"
    rfl rfl rfl (by decide) rfl

/-- C7: when step 1 returns sentinel text but `force_extraction` is true,
the handler does not short-circuit: the structuring call is made and its
user input is the fixed instruction followed verbatim by step 1's returned
text. -/
theorem c7_force_extraction_proceeds (body : ReqBody) (oracle : Oracle)
    (e l t : Nat) (img payload txt : String)
    (himg : body.image = some img)
    (hstrip : stripImage img = Except.ok payload)
    (h1 : oracle.step1 = Except.ok txt)
    (hsent : pyStrip txt = "NO_LICENSE_DETECTED")
    (hforce : body.force_extraction = true) :
    (extract_text (some body) oracle e l t).2 =
      [Call.extraction ("data:image/jpeg;base64," ++ payload),
       Call.structuring (structuringUserText txt)] ∧
    structuringUserText txt =
      "Extract driver\x27s license information from this text:\n\n" ++ txt
    := by
  have hns : ¬(pyStrip txt = "NO_LICENSE_DETECTED" ∧
      body.force_extraction = false) := by
    rintro ⟨-, hf⟩
    rw [hforce] at hf
    exact Bool.noConfusion hf
  refine ⟨?_, rfl⟩
  unfold extract_text
  simp only [himg, hstrip, h1]
  rw [if_neg hns]
  cases h2 : oracle.step2 (structuringUserText txt) <;> simp [h2]

/-- Witness for C7: the sentinel text with `force_extraction` true is
forwarded verbatim to the structuring call. -/
theorem c7_force_extraction_proceeds_witness :
    (extract_text (some ⟨some "AAAA", true⟩)
        (constOracle "NO_LICENSE_DETECTED" "K: V") 0 0 0).2 =
      [Call.extraction ("data:image/jpeg;base64," ++ "AAAA"),
       Call.structuring (structuringUserText "NO_LICENSE_DETECTED")] :=
  (c7_force_extraction_proceeds ⟨some "AAAA", true⟩
    (constOracle "NO_LICENSE_DETECTED" "K: V") 0 0 0 "AAAA" "AAAA"
    "NO_LICENSE_DETECTED" rfl rfl rfl (by decide) rfl).1

/-- C5: when both calls succeed and no line of the step-2 text contains a
colon, the handler still answers with success status and the single
synthetic `Raw Extracted Text` field holding step 1's text; moreover the
field mapping of any success response is never empty. -/
theorem c5_no_colon_fallback :
    (∀ (body : ReqBody) (oracle : Oracle) (e l t : Nat)
        (img payload txt li : String),
      body.image = some img →
      stripImage img = Except.ok payload →
      oracle.step1 = Except.ok txt →
      ¬(pyStrip txt = "NO_LICENSE_DETECTED" ∧
          body.force_extraction = false) →
      oracle.step2 (structuringUserText txt) = Except.ok li →
      (∀ line ∈ pySplit '\n' li, pyContains line ':' = false) →
      extract_text (some body) oracle e l t =
        (Response.success [("Raw Extracted Text", txt)] txt li
           (fmt2f e ++ "s") (fmt2f l ++ "s") (fmt2f t ++ "s"),
         [Call.extraction ("data:image/jpeg;base64," ++ payload),
          Call.structuring (structuringUserText txt)])) ∧
    (∀ (req : Option ReqBody) (oracle : Oracle) (e l t : Nat)
        (d : List (String × String)) (r i a b c : String),
      (extract_text req oracle e l t).1 = Response.success d r i a b c →
      d ≠ []) := by
  constructor
  · intro body oracle e l t img payload txt li himg hstrip h1 hns h2 hlines
    have hparse : parseLicenseInfo li = [] :=
      foldl_parseLine_no_colon (pySplit '\n' li) hlines []
    have hfd : formattedData li txt = [("Raw Extracted Text", txt)] := by
      simp [formattedData, hparse]
    unfold extract_text
    simp only [himg, hstrip, h1]
    rw [if_neg hns]
    simp only [h2, hfd]
  · intro req oracle e l t d r i a b c h
    cases req with
    | none => simp [extract_text] at h
    | some body =>
      simp only [extract_text] at h
      cases himg : body.image with
      | none => simp [himg] at h
      | some img =>
        simp only [himg] at h
        cases hstrip : stripImage img with
        | error msg => simp [hstrip] at h
        | ok payload =>
          simp only [hstrip] at h
          cases h1 : oracle.step1 with
          | error msg => simp [h1] at h
          | ok txt =>
            simp only [h1] at h
            by_cases hc : pyStrip txt = "NO_LICENSE_DETECTED" ∧
                body.force_extraction = false
            · rw [if_pos hc] at h; simp at h
            · rw [if_neg hc] at h
              cases h2 : oracle.step2 (structuringUserText txt) with
              | error msg => simp [h2] at h
              | ok li =>
                simp only [h2, Response.success.injEq] at h
                rw [← h.1]
                exact formattedData_ne_nil li txt

/-- Witness for C5: a step-2 text with no colon on any line yields the
synthetic single-field success response. -/
theorem c5_no_colon_fallback_witness :
    extract_text (some ⟨some "AAAA", false⟩)
        (constOracle "T" "hello world") 1 2 3 =
      (Response.success [("Raw Extracted Text", "T")] "T" "hello world"
         (fmt2f 1 ++ "s") (fmt2f 2 ++ "s") (fmt2f 3 ++ "s"),
       [Call.extraction ("data:image/jpeg;base64," ++ "AAAA"),
        Call.structuring (structuringUserText "T")]) :=
  c5_no_colon_fallback.1 ⟨some "AAAA", false⟩ (constOracle "T" "hello world")
    1 2 3 "AAAA" "AAAA" "T" "hello world" rfl rfl rfl (by decide) rfl
    (by decide)

/-- C8: the handler is a total function (no exception escapes it), every
response it produces carries a `status` discriminator equal to `success`
or `error`, and the one in-handler exception of the model (the
`IndexError` of the prefix stripping) is absorbed by the outermost safety
net into the uniform `Server error: ...` JSON built from the exception's
message. -/
theorem c8_safety_net :
    (∀ (req : Option ReqBody) (oracle : Oracle) (e l t : Nat),
      (extract_text req oracle e l t).1.statusField = "success" ∨
      (extract_text req oracle e l t).1.statusField = "error") ∧
    (∀ (oracle : Oracle) (e l t : Nat) (f : Bool) (img msg : String),
      stripImage img = Except.error msg →
      extract_text (some ⟨some img, f⟩) oracle e l t =
        (Response.errorMsg ("Server error: " ++ msg), [])) := by
  constructor
  · intro req oracle e l t
    cases hr : (extract_text req oracle e l t).1 <;>
      simp [Response.statusField]
  · intro oracle e l t f img msg hstrip
    unfold extract_text
    simp only [hstrip]

/-- Witness for C8: a concrete unhandled `IndexError` degrades to the
uniform error JSON with the exception message embedded. -/
theorem c8_safety_net_witness :
    extract_text (some ⟨some "data:imageY", true⟩) (constOracle "a" "b")
        0 0 0 =
      (Response.errorMsg ("Server error: " ++ "list index out of range"),
       []) :=
  c8_safety_net.2 (constOracle "a" "b") 0 0 0 true "data:imageY"
    "list index out of range" rfl

/-- C9: a fully successful run answers with the field mapping, step 1's
raw text, step 2's unparsed text, and the three durations each rendered
as the integer seconds, a dot, exactly two decimal digits, and a trailing
`s`. -/
theorem c9_success_shape (body : ReqBody) (oracle : Oracle)
    (e l t : Nat) (img payload txt li : String)
    (himg : body.image = some img)
    (hstrip : stripImage img = Except.ok payload)
    (h1 : oracle.step1 = Except.ok txt)
    (hns : ¬(pyStrip txt = "NO_LICENSE_DETECTED" ∧
        body.force_extraction = false))
    (h2 : oracle.step2 (structuringUserText txt) = Except.ok li) :
    extract_text (some body) oracle e l t =
      (Response.success (formattedData li txt) txt li
         (fmt2f e ++ "s") (fmt2f l ++ "s") (fmt2f t ++ "s"),
       [Call.extraction ("data:image/jpeg;base64," ++ payload),
        Call.structuring (structuringUserText txt)]) ∧
    (∀ cs : Nat, ∃ d1 d2 : Char, d1.isDigit = true ∧ d2.isDigit = true ∧
      (fmt2f cs ++ "s").data =
        (toString (cs / 100)).data ++ '.' :: [d1, d2, 's']) := by
  refine ⟨?_, fmt2f_data⟩
  unfold extract_text
  simp only [himg, hstrip, h1]
  rw [if_neg hns]
  simp only [h2]

/-- Witness for C9: a concrete fully successful run. -/
theorem c9_success_shape_witness :
    extract_text (some ⟨some "AAAA", false⟩)
        (constOracle "T" "LIC#: D123") 1 2 3 =
      (Response.success (formattedData "LIC#: D123" "T") "T" "LIC#: D123"
         (fmt2f 1 ++ "s") (fmt2f 2 ++ "s") (fmt2f 3 ++ "s"),
       [Call.extraction ("data:image/jpeg;base64," ++ "AAAA"),
        Call.structuring (structuringUserText "T")]) :=
  (c9_success_shape ⟨some "AAAA", false⟩ (constOracle "T" "LIC#: D123")
    1 2 3 "AAAA" "AAAA" "T" "LIC#: D123" rfl rfl rfl (by decide) rfl).1
